import Mathlib

/-! ClueGetter milter session engine (`src/cluegetter/milter.go`).

A shallow embedding of the milter callbacks of `milter.go`.  The process-wide
mutable state the callbacks touch (the session index, the statistics counters,
the per-connection private data and reply kept by libmilter) is threaded
explicitly as a `World`.  A Go panic is an explicit `Outcome`, so that the
state a handler had already written before it panicked stays visible, exactly
as in Go.
-/

namespace ClueGetter

/-! ## Data model -/

/-- Modelled from the spec: the header record `milterMessageHeader`, built in
`Header` as `&milterMessageHeader{headerf, headerv}`; its declaration is not in
`milter.go`.  A plain record of name and value. -/
structure milterMessageHeader where
  Key : String
  Value : String
deriving DecidableEq

/-- Modelled from the spec: the type `milterMessage`, whose declaration is not
in `milter.go`.  It has the fields the callbacks use: envelope sender,
recipients, headers, body fragments and queue id.  A Go `string` built from a
byte slice keeps the bytes, so a body fragment is a list of bytes. -/
structure milterMessage where
  From : String
  Rcpt : List String
  Headers : List milterMessageHeader
  Body : List (List UInt8)
  QueueId : String
deriving DecidableEq

/-- Modelled from the spec: the type `milterSession`, whose declaration is not
in `milter.go`.  It has the fields the callbacks use and the ordered sequence
of messages behind `getNewMessage` and `getLastMessage`.  Timestamps are
clock readings taken as natural numbers. -/
structure milterSession where
  id : Nat
  timeStart : Nat
  timeEnd : Nat
  Hostname : String
  Ip : String
  Helo : String
  CertIssuer : String
  CertSubject : String
  CipherBits : String
  Cipher : String
  TlsVersion : String
  SaslSender : String
  SaslMethod : String
  SaslUsername : String
  messages : List milterMessage
deriving DecidableEq

/-- The state the callbacks read and write.
* `sessions` is `MilterDataIndex.sessions`, a Go map from id to session;
* `StatsCounters` is the global map of named counters, with `none` for a name
  that was never registered (a nil `*StatsCounter`);
* `priv` and `reply` are what libmilter keeps per connection context
  (`SetPriv`/`GetPriv`, `SetReply`);
* `symval` is the macro table read by `GetSymVal`;
* `persisted` lists the session snapshots handed to `persist`. -/
structure World where
  sessions : Nat → Option milterSession
  StatsCounters : String → Option Nat
  priv : Nat → Option Nat
  reply : Nat → Option (String × String × String)
  symval : Nat → String → String
  persisted : List milterSession

/-- How a Go function body ends: it returns its `sfsistat`, or it panics. -/
inductive Outcome where
  | returned (sfsistat : Int)
  | panicked (r : String)
deriving DecidableEq

/-! ## libmilter response codes (`SMFIS_*`, re-exported by gomilter) -/

def Continue : Int := 0
def Reject : Int := 1
def Discard : Int := 2
def Tempfail : Int := 4

/-- Modelled from the spec: the verdict constants of the policy collaborator,
declared outside `milter.go`.  Three distinct values `Permit`, `TempFail`,
`Reject`. -/
def messagePermit : Int := 0
/-- Modelled from the spec: see `messagePermit`. -/
def messageTempFail : Int := 1
/-- Modelled from the spec: see `messagePermit`. -/
def messageReject : Int := 2

/-! ## Collaborators used by the callbacks -/

/-- Modelled from the spec: `StatsCounter.increase`, declared outside
`milter.go`: "increase by N" on a registered counter.  `StatsCounters[name]`
of an unregistered name is a nil pointer and the call panics (`none`). -/
def increase (w : World) (name : String) (nr : Nat) : Option World :=
  match w.StatsCounters name with
  | none => none
  | some v => some { w with StatsCounters := Function.update w.StatsCounters name (some (v + nr)) }

/-- The call `m.SetReply(ctx, rcode, xcode, message)`. -/
def SetReply (w : World) (ctx : Nat) (rcode xcode message : String) : World :=
  { w with reply := Function.update w.reply ctx (some (rcode, xcode, message)) }

/-- The call `m.SetPriv(ctx, u)`. -/
def SetPriv (w : World) (ctx : Nat) (u : Nat) : World :=
  { w with priv := Function.update w.priv ctx (some u) }

/-- The call `m.GetPriv(ctx, &u)`: gomilter hands the stored value over and
releases it, which is why `milterGetSession` stores it again when `keep` is
set.  Without stored data `u` keeps its zero value. -/
def GetPriv (w : World) (ctx : Nat) : World × Nat :=
  match w.priv ctx with
  | none => (w, 0)
  | some u => ({ w with priv := Function.update w.priv ctx none }, u)

/-- The call `m.GetSymVal(ctx, name)`. -/
def GetSymVal (w : World) (ctx : Nat) (name : String) : String :=
  w.symval ctx name

/-- The function `milterGetSession`.  The returned `*milterSession` is the key
of the session in the index, `none` being the nil pointer. -/
def milterGetSession (w : World) (ctx : Nat) (keep : Bool) : World × Option Nat :=
  let r := GetPriv w ctx
  let w1 := if keep then SetPriv r.1 ctx r.2 else r.1
  (w1, if (w1.sessions r.2).isSome then some r.2 else none)

/-- Modelled from the spec: `milterSession.persist`, declared outside
`milter.go`: fire and forget, it hands a snapshot of the session to storage
and changes nothing the callbacks read. -/
def persist (w : World) (u : Nat) : World :=
  match w.sessions u with
  | none => w
  | some s => { w with persisted := w.persisted ++ [s] }

/-- Modelled from the spec: `milterSession.getNewMessage`, declared outside
`milter.go`: starts a new, empty Message and appends it to the sequence of
session `u`.  The result is the new world and the index of the new message. -/
def getNewMessage (w : World) (u : Nat) : Option (World × Nat) :=
  match w.sessions u with
  | none => none
  | some s =>
    let s1 : milterSession := { s with messages := s.messages ++ [⟨"", [], [], [], ""⟩] }
    some ({ w with sessions := Function.update w.sessions u (some s1) }, s.messages.length)

/-- Modelled from the spec: `milterSession.getLastMessage`, declared outside
`milter.go`: the most recently appended Message of session `u` is the current
one.  The result is the index of that message; on a session without messages
the call panics (`none`). -/
def getLastMessage (w : World) (u : Nat) : Option Nat :=
  match w.sessions u with
  | none => none
  | some s => if s.messages.length = 0 then none else some (s.messages.length - 1)

/-- A write through a `*milterMessage`: message `i` of session `u` becomes
`f` of itself. -/
def modifyMessage (w : World) (u i : Nat) (f : milterMessage → milterMessage) : World :=
  match w.sessions u with
  | none => w
  | some s =>
    match s.messages.get? i with
    | none => w
    | some msg =>
      let s1 : milterSession := { s with messages := s.messages.set i (f msg) }
      { w with sessions := Function.update w.sessions u (some s1) }

/-- A write through a `*milterSession`. -/
def modifySession (w : World) (u : Nat) (f : milterSession → milterSession) : World :=
  match w.sessions u with
  | none => w
  | some s => { w with sessions := Function.update w.sessions u (some (f s)) }

/-- The read of message `i` of session `u` through a `*milterMessage`. -/
def readMessage (w : World) (u i : Nat) : Option milterMessage :=
  match w.sessions u with
  | none => none
  | some s => s.messages.get? i

/-! ## The failure guard -/

/-- The panic of a nil pointer dereference. -/
def nilDeref : Outcome := Outcome.panicked "invalid memory address or nil pointer dereference"

/-- The panic of an index outside a slice. -/
def indexOutOfRange : Outcome := Outcome.panicked "index out of range"

/-- The function `milterHandleError`, run as the deferred call of every
callback on the world and outcome the body left.  `recover()` is nil when the
body returned; otherwise the guard counts the panic, sets the reply and
overwrites the named result.  If `StatsCounters["MessagePanics"]` is nil the
guard itself panics. -/
def milterHandleError (ctx : Nat) (r : World × Outcome) : World × Outcome :=
  match r.2 with
  | Outcome.returned s => (r.1, Outcome.returned s)
  | Outcome.panicked _ =>
    match increase r.1 "MessagePanics" 1 with
    | none => (r.1, nilDeref)
    | some w1 =>
      (SetReply w1 ctx "421" "4.7.0" "An internal error ocurred", Outcome.returned Tempfail)

/-- The function `milterStart`, as far as the state goes: a fresh session
index and the eleven counters it registers. -/
def milterStart (w : World) : World :=
  let reg := fun (c : String → Option Nat) (name : String) => Function.update c name (some 0)
  { w with
    sessions := fun _ => none
    StatsCounters :=
      reg (reg (reg (reg (reg (reg (reg (reg (reg (reg (reg w.StatsCounters
        "MilterCallbackConnect") "MilterCallbackHelo") "MilterCallbackEnvFrom")
        "MilterCallbackEnvRcpt") "MilterCallbackHeader") "MilterCallbackEoh")
        "MilterCallbackBody") "MilterCallbackEom") "MilterCallbackAbort")
        "MilterCallbackClose") "MilterProtocolErrors" }

/-! ## The callbacks

Each callback is its handler logic followed by the deferred
`milterHandleError`.  A bare `return` hands back the named result `sfsistat`,
which still holds its zero value `0`.  Calls to `Log` only matter through the
evaluation of their arguments and are otherwise left out. -/

/-- The method `milterDataIndex.getNewSession`: a session with only `timeStart`
set is persisted and stored under its id.  The id is what `getId` returns after
`persist`, both declared outside `milter.go`; it is taken as `newId`, and the
reading of `time.Now()` as `now`. -/
def getNewSession (w : World) (now newId : Nat) : World × Nat :=
  let sess : milterSession := ⟨newId, now, 0, "", "", "", "", "", "", "", "", "", "", "", []⟩
  ({ w with sessions := Function.update w.sessions newId (some sess)
            persisted := w.persisted ++ [sess] }, newId)

/-- The handler logic of `milter.Connect`. -/
def ConnectLogic (ctx : Nat) (hostname ip : String) (now newId : Nat) (w : World) :
    World × Outcome :=
  let r := getNewSession w now newId
  let w1 := modifySession r.1 r.2 (fun s => { s with Hostname := hostname, Ip := ip })
  let w2 := SetPriv (persist w1 r.2) ctx r.2
  match increase w2 "MilterCallbackConnect" 1 with
  | none => (w2, nilDeref)
  | some w3 => (w3, Outcome.returned Continue)

/-- The handler logic of `milter.Helo`. -/
def HeloLogic (ctx : Nat) (helo : String) (w : World) : World × Outcome :=
  let r := milterGetSession w ctx true
  match r.2 with
  | none =>
    match increase r.1 "MilterProtocolErrors" 1 with
    | none => (r.1, nilDeref)
    | some w1 =>
      (SetReply w1 ctx "421" "4.7.0" "HELO/EHLO can only be specified at start of session",
        Outcome.returned Tempfail)
  | some u =>
    match increase r.1 "MilterCallbackHelo" 1 with
    | none => (r.1, nilDeref)
    | some w1 =>
      let w2 := modifySession w1 u (fun s =>
        { s with Helo := helo
                 CertIssuer := GetSymVal w1 ctx "\x7bcert_issuer\x7d"
                 CertSubject := GetSymVal w1 ctx "\x7bcert_subject\x7d"
                 CipherBits := GetSymVal w1 ctx "\x7bcipher_bits\x7d"
                 Cipher := GetSymVal w1 ctx "\x7bcipher\x7d"
                 TlsVersion := GetSymVal w1 ctx "\x7btls_version\x7d" })
      (persist w2 u, Outcome.returned 0)

/-- The handler logic of `milter.EnvFrom`.  The argument `from[0]` of the
`Log.Debug` call is evaluated before the length check. -/
def EnvFromLogic (ctx : Nat) (frm : List String) (w : World) : World × Outcome :=
  let r := milterGetSession w ctx true
  match r.2 with
  | none => (r.1, nilDeref)
  | some u =>
    match getNewMessage r.1 u with
    | none => (r.1, nilDeref)
    | some (w1, msg) =>
      match increase w1 "MilterCallbackEnvFrom" 1 with
      | none => (w1, nilDeref)
      | some w2 =>
        match frm.head? with
        | none => (w2, indexOutOfRange)
        | some from0 =>
          if frm.length ≠ 1 then
            match increase w2 "MilterProtocolErrors" 1 with
            | none => (w2, nilDeref)
            | some w3 =>
              (modifyMessage w3 u msg (fun m => { m with From := from0 }), Outcome.returned 0)
          else
            (modifyMessage w2 u msg (fun m => { m with From := from0 }), Outcome.returned 0)

/-- The handler logic of `milter.EnvRcpt`. -/
def EnvRcptLogic (ctx : Nat) (rcpt : List String) (w : World) : World × Outcome :=
  let r := milterGetSession w ctx true
  match r.2 with
  | none => (r.1, nilDeref)
  | some u =>
    match getLastMessage r.1 u with
    | none => (r.1, indexOutOfRange)
    | some msg =>
      match rcpt.head? with
      | none => (r.1, indexOutOfRange)
      | some rcpt0 =>
        let w1 := modifyMessage r.1 u msg (fun m => { m with Rcpt := m.Rcpt ++ [rcpt0] })
        match increase w1 "MilterCallbackEnvRcpt" 1 with
        | none => (w1, nilDeref)
        | some w2 => (w2, Outcome.returned 0)

/-- The handler logic of `milter.Header`. -/
def HeaderLogic (ctx : Nat) (headerf headerv : String) (w : World) : World × Outcome :=
  let header : milterMessageHeader := ⟨headerf, headerv⟩
  let r := milterGetSession w ctx true
  match r.2 with
  | none => (r.1, nilDeref)
  | some u =>
    match getLastMessage r.1 u with
    | none => (r.1, indexOutOfRange)
    | some msg =>
      let w1 := modifyMessage r.1 u msg (fun m => { m with Headers := m.Headers ++ [header] })
      match increase w1 "MilterCallbackHeader" 1 with
      | none => (w1, nilDeref)
      | some w2 => (w2, Outcome.returned 0)

/-- The handler logic of `milter.Eoh`. -/
def EohLogic (ctx : Nat) (w : World) : World × Outcome :=
  let r := milterGetSession w ctx true
  match r.2 with
  | none => (r.1, nilDeref)
  | some u =>
    let w1 := modifySession r.1 u (fun s =>
      { s with SaslSender := GetSymVal r.1 ctx "\x7bauth_author\x7d"
               SaslMethod := GetSymVal r.1 ctx "\x7bauth_type\x7d"
               SaslUsername := GetSymVal r.1 ctx "\x7bauth_authen\x7d" })
    match getLastMessage w1 u with
    | none => (w1, indexOutOfRange)
    | some msg =>
      let w2 := modifyMessage w1 u msg (fun m => { m with QueueId := GetSymVal w1 ctx "i" })
      match increase w2 "MilterCallbackEoh" 1 with
      | none => (w2, nilDeref)
      | some w3 => (w3, Outcome.returned 0)

/-- The handler logic of `milter.Body`. -/
def BodyLogic (ctx : Nat) (body : List UInt8) (w : World) : World × Outcome :=
  let bodyStr := body
  let r := milterGetSession w ctx true
  match r.2 with
  | none => (r.1, nilDeref)
  | some u =>
    match getLastMessage r.1 u with
    | none => (r.1, indexOutOfRange)
    | some msg =>
      let w1 := modifyMessage r.1 u msg (fun m => { m with Body := m.Body ++ [bodyStr] })
      match increase w1 "MilterCallbackBody" 1 with
      | none => (w1, nilDeref)
      | some w2 => (w2, Outcome.returned 0)

/-- The handler logic of `milter.Eom`.  `messageGetVerdict` is the policy
collaborator, declared outside `milter.go` and taken as a parameter. -/
def EomLogic (messageGetVerdict : milterMessage → Int × String) (ctx : Nat) (w : World) :
    World × Outcome :=
  let r := milterGetSession w ctx true
  match increase r.1 "MilterCallbackEom" 1 with
  | none => (r.1, nilDeref)
  | some w1 =>
    match r.2 with
    | none => (w1, nilDeref)
    | some u =>
      match getLastMessage w1 u with
      | none => (w1, indexOutOfRange)
      | some i =>
        match readMessage w1 u i with
        | none => (w1, indexOutOfRange)
        | some msg =>
          let v := messageGetVerdict msg
          if v.1 = messagePermit then
            (w1, Outcome.returned 0)
          else if v.1 = messageTempFail then
            (SetReply w1 ctx "421" "4.7.0" v.2, Outcome.returned Tempfail)
          else if v.1 = messageReject then
            (SetReply w1 ctx "550" "5.7.1" v.2, Outcome.returned Reject)
          else
            (w1, Outcome.panicked "verdict was not recognized")

/-- The handler logic of `milter.Abort`. -/
def AbortLogic (ctx : Nat) (w : World) : World × Outcome :=
  match increase w "MilterCallbackAbort" 1 with
  | none => (w, nilDeref)
  | some w1 => ((milterGetSession w1 ctx false).1, Outcome.returned 0)

/-- The handler logic of `milter.Close`; `now` is the reading of `time.Now()`. -/
def CloseLogic (ctx : Nat) (now : Nat) (w : World) : World × Outcome :=
  match increase w "MilterCallbackClose" 1 with
  | none => (w, nilDeref)
  | some w1 =>
    let r := milterGetSession w1 ctx false
    match r.2 with
    | none => (r.1, Outcome.returned 0)
    | some u => (persist (modifySession r.1 u (fun s => { s with timeEnd := now })) u,
        Outcome.returned 0)

def Connect (ctx : Nat) (hostname ip : String) (now newId : Nat) (w : World) : World × Outcome :=
  milterHandleError ctx (ConnectLogic ctx hostname ip now newId w)

def Helo (ctx : Nat) (helo : String) (w : World) : World × Outcome :=
  milterHandleError ctx (HeloLogic ctx helo w)

def EnvFrom (ctx : Nat) (frm : List String) (w : World) : World × Outcome :=
  milterHandleError ctx (EnvFromLogic ctx frm w)

def EnvRcpt (ctx : Nat) (rcpt : List String) (w : World) : World × Outcome :=
  milterHandleError ctx (EnvRcptLogic ctx rcpt w)

def Header (ctx : Nat) (headerf headerv : String) (w : World) : World × Outcome :=
  milterHandleError ctx (HeaderLogic ctx headerf headerv w)

def Eoh (ctx : Nat) (w : World) : World × Outcome :=
  milterHandleError ctx (EohLogic ctx w)

def Body (ctx : Nat) (body : List UInt8) (w : World) : World × Outcome :=
  milterHandleError ctx (BodyLogic ctx body w)

def Eom (messageGetVerdict : milterMessage → Int × String) (ctx : Nat) (w : World) :
    World × Outcome :=
  milterHandleError ctx (EomLogic messageGetVerdict ctx w)

def Abort (ctx : Nat) (w : World) : World × Outcome :=
  milterHandleError ctx (AbortLogic ctx w)

def Close (ctx : Nat) (now : Nat) (w : World) : World × Outcome :=
  milterHandleError ctx (CloseLogic ctx now w)


/-! ## Drivers and sample states -/

/-- The session id the connection context `ctx` carries: the value `GetPriv`
reads into `u` inside `milterGetSession`. -/
def sessionKey (w : World) (ctx : Nat) : Nat := (GetPriv w ctx).2

/-- Successive `Body` callbacks on one connection, one per chunk, in arrival
order; the result is the final world and the outcome of every call. -/
def BodyAll (ctx : Nat) : List (List UInt8) → World → World × List Outcome
  | [], w => (w, [])
  | c :: cs, w =>
    let r := Body ctx c w
    let rs := BodyAll ctx cs r.1
    (rs.1, r.2 :: rs.2)

/-- Successive `EnvFrom` callbacks on one connection, one per address list. -/
def EnvFromAll (ctx : Nat) : List (List String) → World → World × List Outcome
  | [], w => (w, [])
  | f :: fs, w =>
    let r := EnvFrom ctx f w
    let rs := EnvFromAll ctx fs r.1
    (rs.1, r.2 :: rs.2)

/-- The ten callback entry points with their payloads, as the transport
delivers them to a connection. -/
inductive Callback where
  | connect (hostname ip : String) (now newId : Nat)
  | helo (helo : String)
  | envFrom (frm : List String)
  | envRcpt (rcpt : List String)
  | header (headerf headerv : String)
  | eoh
  | body (body : List UInt8)
  | eom (messageGetVerdict : milterMessage → Int × String)
  | abort
  | close (now : Nat)

/-- The handler logic of a callback, before the deferred guard runs. -/
def Callback.logic (ctx : Nat) (w : World) : Callback → World × Outcome
  | Callback.connect hostname ip now newId => ConnectLogic ctx hostname ip now newId w
  | Callback.helo name => HeloLogic ctx name w
  | Callback.envFrom frm => EnvFromLogic ctx frm w
  | Callback.envRcpt rcpt => EnvRcptLogic ctx rcpt w
  | Callback.header headerf headerv => HeaderLogic ctx headerf headerv w
  | Callback.eoh => EohLogic ctx w
  | Callback.body chunk => BodyLogic ctx chunk w
  | Callback.eom messageGetVerdict => EomLogic messageGetVerdict ctx w
  | Callback.abort => AbortLogic ctx w
  | Callback.close now => CloseLogic ctx now w

/-- The callback as the transport runs it, deferred guard included. -/
def Callback.run (ctx : Nat) (w : World) : Callback → World × Outcome
  | Callback.connect hostname ip now newId => Connect ctx hostname ip now newId w
  | Callback.helo name => Helo ctx name w
  | Callback.envFrom frm => EnvFrom ctx frm w
  | Callback.envRcpt rcpt => EnvRcpt ctx rcpt w
  | Callback.header headerf headerv => Header ctx headerf headerv w
  | Callback.eoh => Eoh ctx w
  | Callback.body chunk => Body ctx chunk w
  | Callback.eom messageGetVerdict => Eom messageGetVerdict ctx w
  | Callback.abort => Abort ctx w
  | Callback.close now => Close ctx now w

/-- A world before any module has started: no session, no counter. -/
def emptyWorld : World :=
  ⟨fun _ => none, fun _ => none, fun _ => none, fun _ => none, fun _ _ => "", []⟩

/-- The world right after `milterStart`, with exactly the counters it
registers. -/
def milterOnlyWorld : World := milterStart emptyWorld

/-- The world after `milterStart` in a process where the message module has
registered the counter `MessagePanics` as well. -/
def startedWorld : World :=
  { milterOnlyWorld with
    StatsCounters := Function.update milterOnlyWorld.StatsCounters "MessagePanics" (some 0) }

/-- Connection `7` after `Connect`, its session having id `1`. -/
def connectedWorld : World := (Connect 7 "mail.example" "192.0.2.1" 100 1 startedWorld).1

/-- Connection `7` after `Connect`, `EnvFrom`, `Header` and `Body`. -/
def inMessageWorld : World :=
  (Body 7 [104, 105] (Header 7 "Subject" "hi" (EnvFrom 7 ["a@example.com"] connectedWorld).1).1).1

/-- The same callbacks as for `inMessageWorld`, in a process where only
`milterStart` has registered counters. -/
def inMessageMilterOnlyWorld : World :=
  (Body 7 [104, 105] (Header 7 "Subject" "hi" (EnvFrom 7 ["a@example.com"]
    (Connect 7 "mail.example" "192.0.2.1" 100 1 milterOnlyWorld).1).1).1).1

/-- The session of connection `7` in `inMessageWorld`. -/
def sampleSession : milterSession :=
  ⟨1, 100, 0, "mail.example", "192.0.2.1", "", "", "", "", "", "", "", "", "",
    [⟨"a@example.com", [], [⟨"Subject", "hi"⟩], [[104, 105]], ""⟩]⟩

/-- The current message of `sampleSession`. -/
def sampleMessage : milterMessage :=
  ⟨"a@example.com", [], [⟨"Subject", "hi"⟩], [[104, 105]], ""⟩

/-! ## Helper lemmas -/

theorem milterGetSession_fst (w : World) (ctx : Nat) (keep : Bool) :
    (milterGetSession w ctx keep).1 =
      { w with priv := Function.update w.priv ctx
                 (if keep then some (sessionKey w ctx) else none) } := by
  unfold milterGetSession sessionKey GetPriv SetPriv
  cases h : w.priv ctx <;> cases keep <;> simp [h]
  · rw [← h]; simp

theorem milterGetSession_snd (w : World) (ctx : Nat) (keep : Bool) :
    (milterGetSession w ctx keep).2 =
      if (w.sessions (sessionKey w ctx)).isSome then some (sessionKey w ctx) else none := by
  unfold milterGetSession sessionKey GetPriv SetPriv
  cases h : w.priv ctx <;> cases keep <;> simp [h]

theorem sessionKey_of_priv (w : World) (ctx u : Nat) (h : w.priv ctx = some u) :
    sessionKey w ctx = u := by
  simp [sessionKey, GetPriv, h]

theorem milterHandleError_returned (ctx : Nat) (w : World) (sf : Int) :
    milterHandleError ctx (w, Outcome.returned sf) = (w, Outcome.returned sf) := rfl

theorem BodyLogic_eq (ctx : Nat) (body : List UInt8) (w : World) (s : milterSession)
    (init : List milterMessage) (cur : milterMessage) (n : Nat)
    (hs : w.sessions (sessionKey w ctx) = some s) (hm : s.messages = init ++ [cur])
    (hc : w.StatsCounters "MilterCallbackBody" = some n) :
    BodyLogic ctx body w =
      ({ w with
          priv := Function.update w.priv ctx (some (sessionKey w ctx))
          sessions := Function.update w.sessions (sessionKey w ctx)
            (some { s with messages := init ++ [{ cur with Body := cur.Body ++ [body] }] })
          StatsCounters := Function.update w.StatsCounters "MilterCallbackBody" (some (n + 1)) },
        Outcome.returned 0) := by
  simp [BodyLogic, milterGetSession_fst, milterGetSession_snd, hs, getLastMessage, hm,
    modifyMessage, increase, hc]

theorem HeaderLogic_eq (ctx : Nat) (headerf headerv : String) (w : World) (s : milterSession)
    (init : List milterMessage) (cur : milterMessage) (n : Nat)
    (hs : w.sessions (sessionKey w ctx) = some s) (hm : s.messages = init ++ [cur])
    (hc : w.StatsCounters "MilterCallbackHeader" = some n) :
    HeaderLogic ctx headerf headerv w =
      ({ w with
          priv := Function.update w.priv ctx (some (sessionKey w ctx))
          sessions := Function.update w.sessions (sessionKey w ctx)
            (some { s with messages :=
              init ++ [{ cur with Headers := cur.Headers ++ [⟨headerf, headerv⟩] }] })
          StatsCounters := Function.update w.StatsCounters "MilterCallbackHeader" (some (n + 1)) },
        Outcome.returned 0) := by
  simp [HeaderLogic, milterGetSession_fst, milterGetSession_snd, hs, getLastMessage, hm,
    modifyMessage, increase, hc]

theorem EnvFromLogic_eq (ctx : Nat) (a : String) (rest : List String) (w : World)
    (s : milterSession) (n e : Nat)
    (hs : w.sessions (sessionKey w ctx) = some s)
    (hc : w.StatsCounters "MilterCallbackEnvFrom" = some n)
    (he : w.StatsCounters "MilterProtocolErrors" = some e) :
    EnvFromLogic ctx (a :: rest) w =
      ({ w with
          priv := Function.update w.priv ctx (some (sessionKey w ctx))
          sessions := Function.update w.sessions (sessionKey w ctx)
            (some { s with messages := s.messages ++ [⟨a, [], [], [], ""⟩] })
          StatsCounters :=
            if rest = [] then
              Function.update w.StatsCounters "MilterCallbackEnvFrom" (some (n + 1))
            else
              Function.update
                (Function.update w.StatsCounters "MilterCallbackEnvFrom" (some (n + 1)))
                "MilterProtocolErrors" (some (e + 1)) },
        Outcome.returned 0) := by
  by_cases hr : rest = []
  · simp [EnvFromLogic, milterGetSession_fst, milterGetSession_snd, hs, getNewMessage,
      modifyMessage, increase, hc, hr]
  · simp [EnvFromLogic, milterGetSession_fst, milterGetSession_snd, hs, getNewMessage,
      modifyMessage, increase, hc, he, hr]

theorem EomLogic_eq (gv : milterMessage → Int × String) (ctx : Nat) (w : World)
    (s : milterSession) (init : List milterMessage) (cur : milterMessage) (n : Nat)
    (hs : w.sessions (sessionKey w ctx) = some s) (hm : s.messages = init ++ [cur])
    (hc : w.StatsCounters "MilterCallbackEom" = some n) :
    EomLogic gv ctx w =
      let w1 : World :=
        { w with
          priv := Function.update w.priv ctx (some (sessionKey w ctx))
          StatsCounters := Function.update w.StatsCounters "MilterCallbackEom" (some (n + 1)) }
      if (gv cur).1 = messagePermit then
        (w1, Outcome.returned 0)
      else if (gv cur).1 = messageTempFail then
        (SetReply w1 ctx "421" "4.7.0" (gv cur).2, Outcome.returned Tempfail)
      else if (gv cur).1 = messageReject then
        (SetReply w1 ctx "550" "5.7.1" (gv cur).2, Outcome.returned Reject)
      else
        (w1, Outcome.panicked "verdict was not recognized") := by
  simp [EomLogic, milterGetSession_fst, milterGetSession_snd, hs, getLastMessage, hm,
    readMessage, increase, hc]

theorem milterHandleError_panicked (ctx : Nat) (w : World) (r : String) (p : Nat)
    (hp : w.StatsCounters "MessagePanics" = some p) :
    milterHandleError ctx (w, Outcome.panicked r) =
      ({ w with
          StatsCounters := Function.update w.StatsCounters "MessagePanics" (some (p + 1))
          reply := Function.update w.reply ctx (some ("421", "4.7.0", "An internal error ocurred")) },
        Outcome.returned Tempfail) := by
  simp [milterHandleError, increase, hp, SetReply]

theorem HeloLogic_no_session (ctx : Nat) (helo : String) (w : World) (n : Nat)
    (hs : w.sessions (sessionKey w ctx) = none)
    (hc : w.StatsCounters "MilterProtocolErrors" = some n) :
    HeloLogic ctx helo w =
      ({ w with
          priv := Function.update w.priv ctx (some (sessionKey w ctx))
          StatsCounters := Function.update w.StatsCounters "MilterProtocolErrors" (some (n + 1))
          reply := Function.update w.reply ctx
            (some ("421", "4.7.0", "HELO/EHLO can only be specified at start of session")) },
        Outcome.returned Tempfail) := by
  simp [HeloLogic, milterGetSession_fst, milterGetSession_snd, hs, increase, hc, SetReply]

theorem AbortLogic_eq (ctx : Nat) (w : World) (n : Nat)
    (hc : w.StatsCounters "MilterCallbackAbort" = some n) :
    AbortLogic ctx w =
      ({ w with
          priv := Function.update w.priv ctx none
          StatsCounters := Function.update w.StatsCounters "MilterCallbackAbort" (some (n + 1)) },
        Outcome.returned 0) := by
  simp [AbortLogic, milterGetSession_fst, increase, hc, sessionKey, GetPriv]

theorem CloseLogic_session (ctx now : Nat) (w : World) (s : milterSession) (n : Nat)
    (hs : w.sessions (sessionKey w ctx) = some s)
    (hc : w.StatsCounters "MilterCallbackClose" = some n) :
    CloseLogic ctx now w =
      ({ w with
          priv := Function.update w.priv ctx none
          StatsCounters := Function.update w.StatsCounters "MilterCallbackClose" (some (n + 1))
          sessions := Function.update w.sessions (sessionKey w ctx) (some { s with timeEnd := now })
          persisted := w.persisted ++ [{ s with timeEnd := now }] },
        Outcome.returned 0) := by
  have hk : ∀ c : String → Option Nat,
      sessionKey { w with StatsCounters := c } ctx = sessionKey w ctx := by
    intro c
    simp only [sessionKey, GetPriv]
    cases w.priv ctx <;> rfl
  simp [CloseLogic, milterGetSession_fst, milterGetSession_snd, increase, hc, hk, hs,
    modifySession, persist]

theorem CloseLogic_no_session (ctx now : Nat) (w : World) (n : Nat)
    (hs : w.sessions (sessionKey w ctx) = none)
    (hc : w.StatsCounters "MilterCallbackClose" = some n) :
    CloseLogic ctx now w =
      ({ w with
          priv := Function.update w.priv ctx none
          StatsCounters := Function.update w.StatsCounters "MilterCallbackClose" (some (n + 1)) },
        Outcome.returned 0) := by
  have hk : ∀ c : String → Option Nat,
      sessionKey { w with StatsCounters := c } ctx = sessionKey w ctx := by
    intro c
    simp only [sessionKey, GetPriv]
    cases w.priv ctx <;> rfl
  simp [CloseLogic, milterGetSession_fst, milterGetSession_snd, increase, hc, hk, hs]

theorem Body_eq (ctx : Nat) (body : List UInt8) (w : World) (s : milterSession)
    (init : List milterMessage) (cur : milterMessage) (n : Nat)
    (hs : w.sessions (sessionKey w ctx) = some s) (hm : s.messages = init ++ [cur])
    (hc : w.StatsCounters "MilterCallbackBody" = some n) :
    Body ctx body w =
      ({ w with
          priv := Function.update w.priv ctx (some (sessionKey w ctx))
          sessions := Function.update w.sessions (sessionKey w ctx)
            (some { s with messages := init ++ [{ cur with Body := cur.Body ++ [body] }] })
          StatsCounters := Function.update w.StatsCounters "MilterCallbackBody" (some (n + 1)) },
        Outcome.returned Continue) := by
  rw [Body, BodyLogic_eq ctx body w s init cur n hs hm hc]
  rfl

theorem EnvFrom_eq (ctx : Nat) (a : String) (rest : List String) (w : World)
    (s : milterSession) (n e : Nat)
    (hs : w.sessions (sessionKey w ctx) = some s)
    (hc : w.StatsCounters "MilterCallbackEnvFrom" = some n)
    (he : w.StatsCounters "MilterProtocolErrors" = some e) :
    EnvFrom ctx (a :: rest) w =
      ({ w with
          priv := Function.update w.priv ctx (some (sessionKey w ctx))
          sessions := Function.update w.sessions (sessionKey w ctx)
            (some { s with messages := s.messages ++ [⟨a, [], [], [], ""⟩] })
          StatsCounters :=
            if rest = [] then
              Function.update w.StatsCounters "MilterCallbackEnvFrom" (some (n + 1))
            else
              Function.update
                (Function.update w.StatsCounters "MilterCallbackEnvFrom" (some (n + 1)))
                "MilterProtocolErrors" (some (e + 1)) },
        Outcome.returned Continue) := by
  rw [EnvFrom, EnvFromLogic_eq ctx a rest w s n e hs hc he]
  rfl

theorem BodyAll_spec (ctx : Nat) (chunks : List (List UInt8)) :
    ∀ (w : World) (s : milterSession) (init : List milterMessage) (cur : milterMessage)
      (n : Nat),
      w.sessions (sessionKey w ctx) = some s → s.messages = init ++ [cur] →
      w.StatsCounters "MilterCallbackBody" = some n →
      (BodyAll ctx chunks w).1.sessions (sessionKey w ctx)
          = some { s with messages := init ++ [{ cur with Body := cur.Body ++ chunks }] } ∧
      (BodyAll ctx chunks w).2 = List.replicate chunks.length (Outcome.returned Continue) ∧
      (∀ k, k ≠ sessionKey w ctx → (BodyAll ctx chunks w).1.sessions k = w.sessions k) := by
  induction chunks with
  | nil =>
    intro w s init cur n hs hm _
    refine ⟨?_, rfl, fun k _ => rfl⟩
    simp only [BodyAll, List.append_nil, hs]
    rw [← hm]
  | cons c cs ih =>
    intro w s init cur n hs hm hc
    have hb := Body_eq ctx c w s init cur n hs hm hc
    simp only [BodyAll, hb]
    have hk : sessionKey _ ctx = sessionKey w ctx :=
      sessionKey_of_priv (Body ctx c w).1 ctx (sessionKey w ctx) (by simp [hb])
    rw [hb] at hk
    have h := ih _ { s with messages := init ++ [{ cur with Body := cur.Body ++ [c] }] }
      init { cur with Body := cur.Body ++ [c] } (n + 1)
      (by rw [hk]; simp) rfl (by simp)
    rw [hk] at h
    obtain ⟨h1, h2, h3⟩ := h
    refine ⟨?_, ?_, ?_⟩
    · rw [h1]; simp
    · rw [h2]; rfl
    · intro k hne
      rw [h3 k hne]
      simp [Function.update_noteq hne]

theorem EnvFromAll_spec (ctx : Nat) (froms : List (List String)) :
    ∀ (w : World) (s : milterSession) (n e : Nat),
      (∀ f ∈ froms, f ≠ []) →
      w.sessions (sessionKey w ctx) = some s →
      w.StatsCounters "MilterCallbackEnvFrom" = some n →
      w.StatsCounters "MilterProtocolErrors" = some e →
      (∃ s1, (EnvFromAll ctx froms w).1.sessions (sessionKey w ctx) = some s1 ∧
        s1.messages.length = s.messages.length + froms.length) ∧
      (EnvFromAll ctx froms w).2 = List.replicate froms.length (Outcome.returned Continue) := by
  induction froms with
  | nil =>
    intro w s n e _ hs _ _
    exact ⟨⟨s, hs, rfl⟩, rfl⟩
  | cons f fs ih =>
    intro w s n e hne hs hc he
    cases f with
    | nil => exact absurd rfl (hne [] (List.mem_cons_self _ _))
    | cons a rest =>
      have hb := EnvFrom_eq ctx a rest w s n e hs hc he
      simp only [EnvFromAll, hb]
      have hk : sessionKey _ ctx = sessionKey w ctx :=
        sessionKey_of_priv (EnvFrom ctx (a :: rest) w).1 ctx (sessionKey w ctx) (by simp [hb])
      rw [hb] at hk
      have hfs : ∀ g ∈ fs, g ≠ [] := fun g hg => hne g (List.mem_cons_of_mem _ hg)
      by_cases hr : rest = []
      · have h := ih _ { s with messages := s.messages ++ [⟨a, [], [], [], ""⟩] } (n + 1) e hfs
          (by rw [hk]; simp) (by simp [hr]) (by simp [hr, he])
        rw [hk] at h
        obtain ⟨⟨s1, h1, h2⟩, h3⟩ := h
        refine ⟨⟨s1, h1, ?_⟩, ?_⟩
        · rw [h2]; simp; omega
        · rw [h3]; rfl
      · have h := ih _ { s with messages := s.messages ++ [⟨a, [], [], [], ""⟩] } (n + 1)
          (e + 1) hfs (by rw [hk]; simp) (by simp [hr]) (by simp [hr])
        rw [hk] at h
        obtain ⟨⟨s1, h1, h2⟩, h3⟩ := h
        refine ⟨⟨s1, h1, ?_⟩, ?_⟩
        · rw [h2]; simp; omega
        · rw [h3]; rfl

/-- After `milterStart` the ten callback counters and `MilterProtocolErrors`
are registered, while `MessagePanics` is whatever it was before. -/
theorem milterStart_counters (w : World) :
    (∀ name ∈ ["MilterCallbackConnect", "MilterCallbackHelo", "MilterCallbackEnvFrom",
        "MilterCallbackEnvRcpt", "MilterCallbackHeader", "MilterCallbackEoh",
        "MilterCallbackBody", "MilterCallbackEom", "MilterCallbackAbort",
        "MilterCallbackClose", "MilterProtocolErrors"],
      (milterStart w).StatsCounters name = some 0) ∧
    (milterStart w).StatsCounters "MessagePanics" = w.StatsCounters "MessagePanics" := by
  constructor
  · intro name hname
    simp only [List.mem_cons, List.mem_singleton, List.not_mem_nil, or_false] at hname
    rcases hname with h | h | h | h | h | h | h | h | h | h | h <;> subst h <;>
      simp [milterStart]
  · simp [milterStart]

theorem modifyMessage_counters (w : World) (u i : Nat) (f : milterMessage → milterMessage) :
    (modifyMessage w u i f).StatsCounters = w.StatsCounters := by
  unfold modifyMessage
  split
  · rfl
  · split <;> rfl

theorem modifySession_counters (w : World) (u : Nat) (f : milterSession → milterSession) :
    (modifySession w u f).StatsCounters = w.StatsCounters := by
  unfold modifySession
  split <;> rfl

theorem persist_counters (w : World) (u : Nat) :
    (persist w u).StatsCounters = w.StatsCounters := by
  unfold persist
  split <;> rfl

theorem ConnectLogic_panics (ctx : Nat) (hostname ip : String) (now newId : Nat) (w : World) :
    (ConnectLogic ctx hostname ip now newId w).1.StatsCounters "MessagePanics"
      = w.StatsCounters "MessagePanics" := by
  rcases h2 : w.StatsCounters "MilterCallbackConnect" with _ | n <;>
  simp [ConnectLogic, increase, getNewSession, SetPriv, persist_counters,
    modifySession_counters, h2]

theorem HeloLogic_panics (ctx : Nat) (helo : String) (w : World) :
    (HeloLogic ctx helo w).1.StatsCounters "MessagePanics" = w.StatsCounters "MessagePanics" := by
  rcases h1 : w.sessions (sessionKey w ctx) with _ | s <;>
  rcases h2 : w.StatsCounters "MilterCallbackHelo" with _ | n <;>
  rcases h3 : w.StatsCounters "MilterProtocolErrors" with _ | e <;>
  simp [HeloLogic, increase, SetReply, persist_counters, modifySession_counters,
    milterGetSession_fst, milterGetSession_snd, h1, h2, h3]

theorem EnvFromLogic_panics (ctx : Nat) (frm : List String) (w : World) :
    (EnvFromLogic ctx frm w).1.StatsCounters "MessagePanics"
      = w.StatsCounters "MessagePanics" := by
  rcases h1 : w.sessions (sessionKey w ctx) with _ | s <;>
  rcases h2 : w.StatsCounters "MilterCallbackEnvFrom" with _ | n <;>
  rcases h3 : w.StatsCounters "MilterProtocolErrors" with _ | e <;>
  rcases frm with _ | ⟨a, _ | ⟨b, rest⟩⟩ <;>
  simp [EnvFromLogic, increase, getNewMessage, modifyMessage_counters, milterGetSession_fst,
    milterGetSession_snd, h1, h2, h3]

theorem EnvRcptLogic_panics (ctx : Nat) (rcpt : List String) (w : World) :
    (EnvRcptLogic ctx rcpt w).1.StatsCounters "MessagePanics"
      = w.StatsCounters "MessagePanics" := by
  rcases h1 : w.sessions (sessionKey w ctx) with _ | s <;>
  rcases h2 : w.StatsCounters "MilterCallbackEnvRcpt" with _ | n <;>
  rcases rcpt with _ | ⟨a, rest⟩ <;>
  simp [EnvRcptLogic, increase, getLastMessage, modifyMessage_counters, milterGetSession_fst,
    milterGetSession_snd, h1, h2] <;>
  split <;> simp [modifyMessage_counters, h2]

theorem HeaderLogic_panics (ctx : Nat) (headerf headerv : String) (w : World) :
    (HeaderLogic ctx headerf headerv w).1.StatsCounters "MessagePanics"
      = w.StatsCounters "MessagePanics" := by
  rcases h1 : w.sessions (sessionKey w ctx) with _ | s <;>
  rcases h2 : w.StatsCounters "MilterCallbackHeader" with _ | n <;>
  simp [HeaderLogic, increase, getLastMessage, modifyMessage_counters, milterGetSession_fst,
    milterGetSession_snd, h1, h2] <;>
  split <;> simp [modifyMessage_counters, h2]

theorem BodyLogic_panics (ctx : Nat) (body : List UInt8) (w : World) :
    (BodyLogic ctx body w).1.StatsCounters "MessagePanics" = w.StatsCounters "MessagePanics" := by
  rcases h1 : w.sessions (sessionKey w ctx) with _ | s <;>
  rcases h2 : w.StatsCounters "MilterCallbackBody" with _ | n <;>
  simp [BodyLogic, increase, getLastMessage, modifyMessage_counters, milterGetSession_fst,
    milterGetSession_snd, h1, h2] <;>
  split <;> simp [modifyMessage_counters, h2]

theorem AbortLogic_panics (ctx : Nat) (w : World) :
    (AbortLogic ctx w).1.StatsCounters "MessagePanics" = w.StatsCounters "MessagePanics" := by
  rcases h2 : w.StatsCounters "MilterCallbackAbort" with _ | n <;>
  simp [AbortLogic, increase, milterGetSession_fst, h2]

theorem CloseLogic_panics (ctx now : Nat) (w : World) :
    (CloseLogic ctx now w).1.StatsCounters "MessagePanics" = w.StatsCounters "MessagePanics" := by
  rcases h2 : w.StatsCounters "MilterCallbackClose" with _ | n
  · simp [CloseLogic, increase, h2]
  · simp only [CloseLogic, increase, h2, milterGetSession_fst, milterGetSession_snd]
    split <;> simp [persist_counters, modifySession_counters]

theorem EohLogic_panics (ctx : Nat) (w : World) :
    (EohLogic ctx w).1.StatsCounters "MessagePanics" = w.StatsCounters "MessagePanics" := by
  rcases h1 : w.sessions (sessionKey w ctx) with _ | s <;>
  rcases h2 : w.StatsCounters "MilterCallbackEoh" with _ | n <;>
  simp [EohLogic, increase, getLastMessage, modifySession, modifyMessage_counters,
    milterGetSession_fst, milterGetSession_snd, h1, h2] <;>
  split <;> simp [modifyMessage_counters, h2]

theorem EomLogic_panics (gv : milterMessage → Int × String) (ctx : Nat) (w : World) :
    (EomLogic gv ctx w).1.StatsCounters "MessagePanics" = w.StatsCounters "MessagePanics" := by
  rcases h2 : w.StatsCounters "MilterCallbackEom" with _ | n
  · simp [EomLogic, increase, milterGetSession_fst, h2]
  · simp only [EomLogic, increase, milterGetSession_fst, milterGetSession_snd, h2]
    repeat' split
    all_goals simp [SetReply]

theorem Callback_logic_panics (cb : Callback) (ctx : Nat) (w : World) :
    (cb.logic ctx w).1.StatsCounters "MessagePanics" = w.StatsCounters "MessagePanics" := by
  cases cb with
  | connect hostname ip now newId => exact ConnectLogic_panics ctx hostname ip now newId w
  | helo name => exact HeloLogic_panics ctx name w
  | envFrom frm => exact EnvFromLogic_panics ctx frm w
  | envRcpt rcpt => exact EnvRcptLogic_panics ctx rcpt w
  | header headerf headerv => exact HeaderLogic_panics ctx headerf headerv w
  | eoh => exact EohLogic_panics ctx w
  | body chunk => exact BodyLogic_panics ctx chunk w
  | eom gv => exact EomLogic_panics gv ctx w
  | abort => exact AbortLogic_panics ctx w
  | close now => exact CloseLogic_panics ctx now w

theorem Callback_run_eq (cb : Callback) (ctx : Nat) (w : World) :
    cb.run ctx w = milterHandleError ctx (cb.logic ctx w) := by
  cases cb <;> rfl

/-! ## Verdict dispatch (`Eom`) -/

/-- C1: on a connection whose context resolves to a Session `s` with current
Message `cur` (the last of `s.messages`), `Eom` consults `messageGetVerdict` on
`cur` and maps the verdict: Permit gives Continue and leaves the reply
untouched; TempFail gives Tempfail with reply 421 / 4.7.0 and the explanation;
Reject gives Reject with reply 550 / 5.7.1 and the explanation, the explanation
passed through unchanged. -/
theorem Eom_maps_verdict (gv : milterMessage → Int × String) (ctx : Nat) (w : World)
    (s : milterSession) (init : List milterMessage) (cur : milterMessage) (n : Nat)
    (hs : w.sessions (sessionKey w ctx) = some s) (hm : s.messages = init ++ [cur])
    (hc : w.StatsCounters "MilterCallbackEom" = some n) :
    ((gv cur).1 = messagePermit →
      (Eom gv ctx w).2 = Outcome.returned Continue ∧ (Eom gv ctx w).1.reply = w.reply) ∧
    ((gv cur).1 = messageTempFail →
      (Eom gv ctx w).2 = Outcome.returned Tempfail ∧
      (Eom gv ctx w).1.reply ctx = some ("421", "4.7.0", (gv cur).2)) ∧
    ((gv cur).1 = messageReject →
      (Eom gv ctx w).2 = Outcome.returned Reject ∧
      (Eom gv ctx w).1.reply ctx = some ("550", "5.7.1", (gv cur).2)) := by
  have h := EomLogic_eq gv ctx w s init cur n hs hm hc
  refine ⟨fun hv => ?_, fun hv => ?_, fun hv => ?_⟩
  · simp [Eom, h, hv, milterHandleError, Continue]
  · simp [Eom, h, hv, milterHandleError, SetReply, messageTempFail, messagePermit]
  · simp [Eom, h, hv, milterHandleError, SetReply, messageTempFail, messagePermit,
      messageReject]

/-- Witness for C1: the three verdicts on connection `7` of `inMessageWorld`,
the reject one with the explanation of the reject scenario. -/
theorem Eom_maps_verdict_witness :
    ((Eom (fun _ => (messagePermit, "")) 7 inMessageWorld).2 = Outcome.returned Continue ∧
      (Eom (fun _ => (messagePermit, "")) 7 inMessageWorld).1.reply = inMessageWorld.reply) ∧
    ((Eom (fun _ => (messageTempFail, "try again later")) 7 inMessageWorld).2
        = Outcome.returned Tempfail ∧
      (Eom (fun _ => (messageTempFail, "try again later")) 7 inMessageWorld).1.reply 7
        = some ("421", "4.7.0", "try again later")) ∧
    ((Eom (fun _ => (messageReject, "blocked by policy")) 7 inMessageWorld).2
        = Outcome.returned Reject ∧
      (Eom (fun _ => (messageReject, "blocked by policy")) 7 inMessageWorld).1.reply 7
        = some ("550", "5.7.1", "blocked by policy")) :=
  ⟨(Eom_maps_verdict (fun _ => (messagePermit, "")) 7 inMessageWorld sampleSession []
      sampleMessage 0 (by decide) (by decide) (by decide)).1 rfl,
   (Eom_maps_verdict (fun _ => (messageTempFail, "try again later")) 7 inMessageWorld
      sampleSession [] sampleMessage 0 (by decide) (by decide) (by decide)).2.1 rfl,
   (Eom_maps_verdict (fun _ => (messageReject, "blocked by policy")) 7 inMessageWorld
      sampleSession [] sampleMessage 0 (by decide) (by decide) (by decide)).2.2 rfl⟩

/-- C3, as amended: let the counter `MessagePanics` be registered (it is not
one of the counters `milterStart` registers).  For each of the ten callbacks,
if its handler logic panics, the guard completes and the callback returns
Tempfail, `MessagePanics` has grown by exactly 1, no other counter differs from
what the handler left, the reply is 421 / 4.7.0 / "An internal error ocurred"
and the session index is as the handler left it; if the handler logic returns,
the callback hands back the handler's response and world unchanged. -/
theorem milterHandleError_contains_panic (cb : Callback) (ctx : Nat) (w : World) (p : Nat)
    (hp : w.StatsCounters "MessagePanics" = some p) :
    (∀ r, (cb.logic ctx w).2 = Outcome.panicked r →
      (cb.run ctx w).2 = Outcome.returned Tempfail ∧
      (cb.run ctx w).1.StatsCounters "MessagePanics" = some (p + 1) ∧
      (∀ k, k ≠ "MessagePanics" →
        (cb.run ctx w).1.StatsCounters k = (cb.logic ctx w).1.StatsCounters k) ∧
      (cb.run ctx w).1.reply ctx = some ("421", "4.7.0", "An internal error ocurred") ∧
      (cb.run ctx w).1.sessions = (cb.logic ctx w).1.sessions) ∧
    (∀ sf, (cb.logic ctx w).2 = Outcome.returned sf → cb.run ctx w = cb.logic ctx w) := by
  have hrun := Callback_run_eq cb ctx w
  have hkeep := Callback_logic_panics cb ctx w
  rw [hp] at hkeep
  constructor
  · intro r hr
    have hpair : cb.logic ctx w = ((cb.logic ctx w).1, Outcome.panicked r) := by
      rw [← hr]
    rw [hrun, hpair, milterHandleError_panicked ctx _ r p hkeep]
    refine ⟨rfl, by simp, ?_, by simp, rfl⟩
    intro k hk
    simp [Function.update_noteq hk]
  · intro sf hsf
    have hpair : cb.logic ctx w = ((cb.logic ctx w).1, Outcome.returned sf) := by
      rw [← hsf]
    rw [hrun]
    conv_lhs => rw [hpair]
    rw [milterHandleError_returned]
    exact hpair.symm

/-- Witness for C3 as amended, on connection `7` of `inMessageWorld`: `Eom`
with the unknown verdict `7`, whose handler logic panics, and `Close`, whose
handler logic returns. -/
theorem milterHandleError_contains_panic_witness :
    inMessageWorld.StatsCounters "MessagePanics" = some 0 ∧
    ((Callback.eom (fun _ => (7, "whatever"))).run 7 inMessageWorld).2
      = Outcome.returned Tempfail ∧
    (Callback.close 200).run 7 inMessageWorld = (Callback.close 200).logic 7 inMessageWorld :=
  ⟨by decide,
    ((milterHandleError_contains_panic (Callback.eom (fun _ => (7, "whatever"))) 7
      inMessageWorld 0 (by decide)).1 "verdict was not recognized" (by decide)).1,
    (milterHandleError_contains_panic (Callback.close 200) 7 inMessageWorld 0
      (by decide)).2 Continue (by decide)⟩

/-- Counterexample to C3 as stated: with exactly the counters `milterStart`
registers, `MessagePanics` is missing; the handler logic of `Eom` panics on an
unknown verdict, and the guard panics in turn: no Tempfail response, no reply,
no counted failure. -/
theorem milterHandleError_fails_on_milterStart_counters :
    inMessageMilterOnlyWorld.StatsCounters "MilterCallbackEom" = some 0 ∧
    inMessageMilterOnlyWorld.StatsCounters "MessagePanics" = none ∧
    (EomLogic (fun _ => (7, "whatever")) 7 inMessageMilterOnlyWorld).2
      = Outcome.panicked "verdict was not recognized" ∧
    (Eom (fun _ => (7, "whatever")) 7 inMessageMilterOnlyWorld).2 = nilDeref ∧
    (Eom (fun _ => (7, "whatever")) 7 inMessageMilterOnlyWorld).2
      ≠ Outcome.returned Tempfail ∧
    (Eom (fun _ => (7, "whatever")) 7 inMessageMilterOnlyWorld).1.reply 7 = none ∧
    (Eom (fun _ => (7, "whatever")) 7 inMessageMilterOnlyWorld).1.StatsCounters "MessagePanics"
      = none := by
  decide

/-! ## `Helo` without a session -/

/-- C4: when the context resolves to no Session, `Helo` does not panic and
returns Tempfail with reply 421 / 4.7.0 / "HELO/EHLO can only be specified at
start of session", adds exactly 1 to `MilterProtocolErrors` and to no other
counter, and leaves the session index unchanged. -/
theorem Helo_without_session (ctx : Nat) (helo : String) (w : World) (n : Nat)
    (hs : w.sessions (sessionKey w ctx) = none)
    (hc : w.StatsCounters "MilterProtocolErrors" = some n) :
    (HeloLogic ctx helo w).2 = Outcome.returned Tempfail ∧
    (Helo ctx helo w).2 = Outcome.returned Tempfail ∧
    (Helo ctx helo w).1.reply ctx
      = some ("421", "4.7.0", "HELO/EHLO can only be specified at start of session") ∧
    (Helo ctx helo w).1.StatsCounters "MilterProtocolErrors" = some (n + 1) ∧
    (∀ k, k ≠ "MilterProtocolErrors" →
      (Helo ctx helo w).1.StatsCounters k = w.StatsCounters k) ∧
    (Helo ctx helo w).1.sessions = w.sessions := by
  have h := HeloLogic_no_session ctx helo w n hs hc
  refine ⟨by rw [h], by simp [Helo, h, milterHandleError], by simp [Helo, h, milterHandleError],
    by simp [Helo, h, milterHandleError], ?_, by simp [Helo, h, milterHandleError]⟩
  intro k hk
  simp [Helo, h, milterHandleError, Function.update_noteq hk]

/-- Witness for C4: `Helo` as the first event on the fresh connection `3`. -/
theorem Helo_without_session_witness :
    startedWorld.sessions (sessionKey startedWorld 3) = none ∧
    (Helo 3 "example.com" startedWorld).2 = Outcome.returned Tempfail ∧
    (Helo 3 "example.com" startedWorld).1.StatsCounters "MilterProtocolErrors" = some 1 :=
  ⟨by decide,
    (Helo_without_session 3 "example.com" startedWorld 0 (by decide) (by decide)).2.1,
    (Helo_without_session 3 "example.com" startedWorld 0 (by decide) (by decide)).2.2.2.1⟩

/-! ## `EnvFrom` -/

/-- C5: evaluation at the failing input.  On connection `7` of
`connectedWorld`, whose session has no message yet, `EnvFrom` with zero
addresses panics inside the handler at `from[0]` (index out of range), after
`getNewMessage` has appended a Message; the guard turns the panic into
Tempfail and the Message with the empty sender stays in the session. -/
theorem EnvFrom_zero_addresses_panics :
    (connectedWorld.sessions 1).map (fun s => s.messages) = some [] ∧
    (EnvFromLogic 7 [] connectedWorld).2 = indexOutOfRange ∧
    (EnvFrom 7 [] connectedWorld).2 = Outcome.returned Tempfail ∧
    ((EnvFrom 7 [] connectedWorld).1.sessions 1).map (fun s => s.messages)
      = some [⟨"", [], [], [], ""⟩] ∧
    (EnvFrom 7 [] connectedWorld).1.StatsCounters "MessagePanics" = some 1 := by
  decide

/-- C6: on a connection whose context resolves to a Session `s`, `EnvFrom`
with the address list `a :: rest` returns Continue, appends exactly one new
Message, empty but for its `From`, which is `a`, to the messages of `s`, leaves
every other session alone, and adds 1 to `MilterProtocolErrors` exactly when
the list does not have length 1.  Hence after any run of `EnvFrom` callbacks
with non-empty lists every call returned Continue and the session has as many
more Messages as there were calls. -/
theorem EnvFrom_appends_message (ctx : Nat) (a : String) (rest : List String) (w : World)
    (s : milterSession) (n e : Nat)
    (hs : w.sessions (sessionKey w ctx) = some s)
    (hc : w.StatsCounters "MilterCallbackEnvFrom" = some n)
    (he : w.StatsCounters "MilterProtocolErrors" = some e) :
    (EnvFrom ctx (a :: rest) w).2 = Outcome.returned Continue ∧
    (EnvFrom ctx (a :: rest) w).1.sessions (sessionKey w ctx)
      = some { s with messages := s.messages ++ [⟨a, [], [], [], ""⟩] } ∧
    (∀ k, k ≠ sessionKey w ctx → (EnvFrom ctx (a :: rest) w).1.sessions k = w.sessions k) ∧
    (EnvFrom ctx (a :: rest) w).1.StatsCounters "MilterProtocolErrors"
      = some (if (a :: rest).length = 1 then e else e + 1) ∧
    (∀ froms : List (List String), (∀ f ∈ froms, f ≠ []) →
      (∃ s1, (EnvFromAll ctx froms w).1.sessions (sessionKey w ctx) = some s1 ∧
        s1.messages.length = s.messages.length + froms.length) ∧
      (EnvFromAll ctx froms w).2 = List.replicate froms.length (Outcome.returned Continue)) := by
  have h := EnvFrom_eq ctx a rest w s n e hs hc he
  refine ⟨by rw [h], by simp [h], ?_, ?_, ?_⟩
  · intro k hk
    simp [h, Function.update_noteq hk]
  · by_cases hr : rest = []
    · subst hr
      rw [h]
      simp [he]
    · simp [h, hr]
  · intro froms hne
    exact EnvFromAll_spec ctx froms w s n e hne hs hc he

/-- Witness for C6: two addresses on connection `7` of `connectedWorld`, and a
run of two `EnvFrom` callbacks there. -/
theorem EnvFrom_appends_message_witness :
    (EnvFrom 7 ["a@example.com", "b@example.com"] connectedWorld).2
      = Outcome.returned Continue ∧
    (EnvFrom 7 ["a@example.com", "b@example.com"] connectedWorld).1.StatsCounters
      "MilterProtocolErrors" = some 1 ∧
    (EnvFromAll 7 [["a@example.com"], ["c@example.com"]] connectedWorld).2
      = List.replicate 2 (Outcome.returned Continue) :=
  ⟨(EnvFrom_appends_message 7 "a@example.com" ["b@example.com"] connectedWorld
      ⟨1, 100, 0, "mail.example", "192.0.2.1", "", "", "", "", "", "", "", "", "", []⟩ 0 0
      (by decide) (by decide) (by decide)).1,
   (EnvFrom_appends_message 7 "a@example.com" ["b@example.com"] connectedWorld
      ⟨1, 100, 0, "mail.example", "192.0.2.1", "", "", "", "", "", "", "", "", "", []⟩ 0 0
      (by decide) (by decide) (by decide)).2.2.2.1,
   ((EnvFrom_appends_message 7 "a@example.com" ["b@example.com"] connectedWorld
      ⟨1, 100, 0, "mail.example", "192.0.2.1", "", "", "", "", "", "", "", "", "", []⟩ 0 0
      (by decide) (by decide) (by decide)).2.2.2.2
        [["a@example.com"], ["c@example.com"]] (by decide)).2⟩

/-! ## `Body` and `Header` -/

/-- C7: on a connection whose context resolves to a Session `s` with current
Message `cur`, successive `Body` callbacks with the chunks `chunks` all return
Continue, and afterwards the body fragments of the current Message are those
it had before followed by the chunks in arrival order; so their concatenation
is the earlier concatenation followed by the concatenation of the chunks. -/
theorem Body_roundtrip (ctx : Nat) (chunks : List (List UInt8)) (w : World)
    (s : milterSession) (init : List milterMessage) (cur : milterMessage) (n : Nat)
    (hs : w.sessions (sessionKey w ctx) = some s) (hm : s.messages = init ++ [cur])
    (hc : w.StatsCounters "MilterCallbackBody" = some n) :
    (BodyAll ctx chunks w).2 = List.replicate chunks.length (Outcome.returned Continue) ∧
    (BodyAll ctx chunks w).1.sessions (sessionKey w ctx)
      = some { s with messages := init ++ [{ cur with Body := cur.Body ++ chunks }] } ∧
    (readMessage (BodyAll ctx chunks w).1 (sessionKey w ctx) init.length).map
        (fun m => m.Body.flatten)
      = some (cur.Body.flatten ++ chunks.flatten) := by
  obtain ⟨h1, h2, _⟩ := BodyAll_spec ctx chunks w s init cur n hs hm hc
  refine ⟨h2, h1, ?_⟩
  simp [readMessage, h1]

/-- Witness for C7: two more chunks on connection `7` of `inMessageWorld`. -/
theorem Body_roundtrip_witness :
    (readMessage (BodyAll 7 [[106], [107, 108]] inMessageWorld).1
        (sessionKey inMessageWorld 7) 0).map (fun m => m.Body.flatten)
      = some (sampleMessage.Body.flatten ++ [[106], [107, 108]].flatten) :=
  (Body_roundtrip 7 [[106], [107, 108]] inMessageWorld sampleSession [] sampleMessage 1
    (by decide) (by decide) (by decide)).2.2

/-- C8: on a connection whose context resolves to a Session `s` with earlier
Messages `init` and current Message `cur`, `Header` returns Continue and puts
the pair at the end of the headers of `cur`, keeping the earlier headers, and
`Body` puts the chunk at the end of the body fragments of `cur`; both leave the
Messages `init`, every other field of `cur` and of `s`, and every other
session of the index unchanged. -/
theorem Header_Body_frame (ctx : Nat) (headerf headerv : String) (body : List UInt8)
    (w : World) (s : milterSession) (init : List milterMessage) (cur : milterMessage)
    (nh nb : Nat)
    (hs : w.sessions (sessionKey w ctx) = some s) (hm : s.messages = init ++ [cur])
    (hh : w.StatsCounters "MilterCallbackHeader" = some nh)
    (hb : w.StatsCounters "MilterCallbackBody" = some nb) :
    (Header ctx headerf headerv w).2 = Outcome.returned Continue ∧
    (Header ctx headerf headerv w).1.sessions (sessionKey w ctx)
      = some { s with messages :=
          init ++ [{ cur with Headers := cur.Headers ++ [⟨headerf, headerv⟩] }] } ∧
    (∀ k, k ≠ sessionKey w ctx →
      (Header ctx headerf headerv w).1.sessions k = w.sessions k) ∧
    (Body ctx body w).2 = Outcome.returned Continue ∧
    (Body ctx body w).1.sessions (sessionKey w ctx)
      = some { s with messages := init ++ [{ cur with Body := cur.Body ++ [body] }] } ∧
    (∀ k, k ≠ sessionKey w ctx → (Body ctx body w).1.sessions k = w.sessions k) := by
  have h1 := HeaderLogic_eq ctx headerf headerv w s init cur nh hs hm hh
  have h2 := Body_eq ctx body w s init cur nb hs hm hb
  refine ⟨by simp [Header, h1, milterHandleError, Continue],
    by simp [Header, h1, milterHandleError], ?_, by rw [h2], by simp [h2], ?_⟩
  · intro k hk
    simp [Header, h1, milterHandleError, Function.update_noteq hk]
  · intro k hk
    simp [h2, Function.update_noteq hk]

/-- Witness for C8: a second `Subject` header on connection `7` of
`inMessageWorld`. -/
theorem Header_Body_frame_witness :
    (Header 7 "Subject" "again" inMessageWorld).1.sessions (sessionKey inMessageWorld 7)
      = some { sampleSession with messages :=
          [] ++ [{ sampleMessage with
            Headers := sampleMessage.Headers ++ [⟨"Subject", "again"⟩] }] } :=
  (Header_Body_frame 7 "Subject" "again" [106] inMessageWorld sampleSession [] sampleMessage
    1 1 (by decide) (by decide) (by decide) (by decide)).2.1

/-! ## `Abort` and `Close` -/

/-- C9, as amended: with the counter `MilterCallbackAbort` registered, `Abort`
returns Continue, takes no verdict and sets no reply, and leaves the session
index as it was: the Session stays, with all its Messages, the in-progress one
included; it adds 1 to `MilterCallbackAbort` only and releases the private data
of the connection. -/
theorem Abort_keeps_messages (ctx : Nat) (w : World) (n : Nat)
    (hc : w.StatsCounters "MilterCallbackAbort" = some n) :
    (Abort ctx w).2 = Outcome.returned Continue ∧
    (Abort ctx w).1.sessions = w.sessions ∧
    (Abort ctx w).1.reply = w.reply ∧
    (Abort ctx w).1.StatsCounters
      = Function.update w.StatsCounters "MilterCallbackAbort" (some (n + 1)) ∧
    (Abort ctx w).1.priv = Function.update w.priv ctx none := by
  have h := AbortLogic_eq ctx w n hc
  refine ⟨?_, ?_, ?_, ?_, ?_⟩ <;> simp [Abort, h, milterHandleError, Continue]

/-- Witness for C9 as amended: `Abort` on connection `7` of `inMessageWorld`. -/
theorem Abort_keeps_messages_witness :
    (Abort 7 inMessageWorld).2 = Outcome.returned Continue ∧
    (Abort 7 inMessageWorld).1.sessions = inMessageWorld.sessions :=
  ⟨(Abort_keeps_messages 7 inMessageWorld 0 (by decide)).1,
   (Abort_keeps_messages 7 inMessageWorld 0 (by decide)).2.1⟩

/-- Counterexample to C9 as stated: after `Abort` on connection `7` of
`inMessageWorld` the session still holds the in-progress Message, with its
sender, header and body fragment, as its current (last) Message. -/
theorem Abort_does_not_discard_message :
    (Abort 7 inMessageWorld).2 = Outcome.returned Continue ∧
    getLastMessage (Abort 7 inMessageWorld).1 1 = some 0 ∧
    readMessage (Abort 7 inMessageWorld).1 1 0
      = some ⟨"a@example.com", [], [⟨"Subject", "hi"⟩], [[104, 105]], ""⟩ ∧
    readMessage (Abort 7 inMessageWorld).1 1 0 = readMessage inMessageWorld 1 0 := by
  decide

/-- C10: with the counter `MilterCallbackClose` registered, `Close` does not
panic and returns Continue for every context.  If the context resolves to a
Session `s`, afterwards that entry of the index is `s` with `timeEnd` set to
the clock reading and nothing else changed, and every other entry is as
before; if it resolves to no Session the index is unchanged. -/
theorem Close_sets_timeEnd_only (ctx now : Nat) (w : World) (n : Nat)
    (hc : w.StatsCounters "MilterCallbackClose" = some n) :
    (CloseLogic ctx now w).2 = Outcome.returned Continue ∧
    (Close ctx now w).2 = Outcome.returned Continue ∧
    (∀ s, w.sessions (sessionKey w ctx) = some s →
      (Close ctx now w).1.sessions (sessionKey w ctx) = some { s with timeEnd := now } ∧
      ∀ k, k ≠ sessionKey w ctx → (Close ctx now w).1.sessions k = w.sessions k) ∧
    (w.sessions (sessionKey w ctx) = none → (Close ctx now w).1.sessions = w.sessions) := by
  have key : (CloseLogic ctx now w).2 = Outcome.returned Continue := by
    cases hs : w.sessions (sessionKey w ctx) with
    | none => rw [CloseLogic_no_session ctx now w n hs hc]; rfl
    | some s => rw [CloseLogic_session ctx now w s n hs hc]; rfl
  refine ⟨key, ?_, ?_, ?_⟩
  · cases hs : w.sessions (sessionKey w ctx) with
    | none => rw [Close, CloseLogic_no_session ctx now w n hs hc]; rfl
    | some s => rw [Close, CloseLogic_session ctx now w s n hs hc]; rfl
  · intro s hs
    have h := CloseLogic_session ctx now w s n hs hc
    refine ⟨by simp [Close, h, milterHandleError], ?_⟩
    intro k hk
    simp [Close, h, milterHandleError, Function.update_noteq hk]
  · intro hs
    have h := CloseLogic_no_session ctx now w n hs hc
    simp [Close, h, milterHandleError]

/-- Witness for C10: `Close` at time `200` on connection `7` of
`inMessageWorld`, and on the unknown connection `3`. -/
theorem Close_sets_timeEnd_only_witness :
    (Close 7 200 inMessageWorld).2 = Outcome.returned Continue ∧
    (Close 7 200 inMessageWorld).1.sessions (sessionKey inMessageWorld 7)
      = some { sampleSession with timeEnd := 200 } ∧
    (Close 3 200 inMessageWorld).1.sessions = inMessageWorld.sessions :=
  ⟨(Close_sets_timeEnd_only 7 200 inMessageWorld 0 (by decide)).2.1,
   ((Close_sets_timeEnd_only 7 200 inMessageWorld 0 (by decide)).2.2.1 sampleSession
      (by decide)).1,
   (Close_sets_timeEnd_only 3 200 inMessageWorld 0 (by decide)).2.2.2 (by decide)⟩

end ClueGetter
